import Mathlib

/-!
Verification of the Meshtastic–Telegram bridge message-relay core.

The Python sources (`mqtt_client.py`, `bridge.py`, `telegram_bot.py`,
`models.py`) are shallowly embedded below: dict lookups become `Option`
fields, JSON numbers become `Rat` (battery levels `Int`), datetimes become
`Nat` seconds, and each handler becomes a pure function returning the list
of side effects it performs (queue puts, mesh publishes, chat replies,
database writes).  Python truthiness on optional values (`if lat and lon:`)
is modelled exactly: `None`, `0`, `0.0` and `""` are falsy.
-/

namespace MeshBridge

/-- Auxiliary: `pat` occurs at the head of `s`. -/
def charsPrefixOf : List Char → List Char → Bool
  | [], _ => true
  | _ :: _, [] => false
  | a :: as, b :: bs => a == b && charsPrefixOf as bs

/-- Auxiliary: `pat` occurs somewhere inside `s`. -/
def hasSubstr (pat s : List Char) : Bool :=
  match s with
  | [] => pat.isEmpty
  | _ :: rest => charsPrefixOf pat s || hasSubstr pat rest

/-- Python `pat in s` substring containment on strings. -/
def strContains (s pat : String) : Bool := hasSubstr pat.data s.data

/-- The five message kinds returned by `MeshtasticMQTTClient._get_message_type`. -/
inductive MessageKind
  | text
  | position
  | telemetry
  | nodeinfo
  | unknown
deriving DecidableEq, Repr

/-- `MeshtasticMQTTClient._get_message_type` (mqtt_client.py, lines 82–93).
`typeField` is `data.get('type')`: `none` when the key is absent. -/
def getMessageType (topic : String) (typeField : Option String) : MessageKind :=
  if strContains topic "text" || typeField == some "sendtext" then .text
  else if strContains topic "position" || typeField == some "position" then .position
  else if strContains topic "telemetry" then .telemetry
  else if strContains topic "nodeinfo" then .nodeinfo
  else .unknown

example : getMessageType "msh/2/json/text/ch0" none = .text := by decide
example : getMessageType "msh/telemetry" (some "sendtext") = .text := by decide
example : getMessageType "msh/nodeinfo" (some "position") = .position := by decide
example : getMessageType "msh/other" none = .unknown := by decide

/-! ## models.py — persisted entities and `Database.update_node` -/

/-- Row of the `mesh_nodes` table (models.py, `MeshNode`).  `lastSeen` is a
UTC timestamp in seconds; columns are `Option` because they are NULL until
first observed. -/
structure DbNode where
  nodeId : String
  longName : Option String := none
  shortName : Option String := none
  hardwareModel : Option String := none
  lastSeen : Option Nat := none
  batteryLevel : Option Int := none
  latitude : Option Rat := none
  longitude : Option Rat := none
  altitude : Option Rat := none
  messageCount : Nat := 0
deriving DecidableEq, Repr

/-- Row of the `users` table (models.py, `User`). -/
structure DbUser where
  chatId : Int
  username : Option String := none
  firstName : Option String := none
  lastName : Option String := none
  isAdmin : Bool := false
  isApproved : Bool := true
  messageCount : Nat := 0
deriving DecidableEq, Repr

/-- Row of the `messages` table (models.py, `Message`):
one record appended by `Database.log_message`. -/
structure LogRecord where
  direction : String
  chatId : Int
  content : String
  meshNode : Option String := none
  messageType : String := "text"
deriving DecidableEq, Repr

/-- The dict read under the `'user'` key by `update_node` (keys
`longName`, `shortName`, `hwModel`). -/
structure UserDict where
  longName : Option String := none
  shortName : Option String := none
  hwModel : Option String := none
deriving DecidableEq, Repr

/-- The dict read under the `'position'` key by `update_node`
(also the position payload of `_handle_position_message`). -/
structure PosDict where
  latitude : Option Rat := none
  longitude : Option Rat := none
  altitude : Option Rat := none
deriving DecidableEq, Repr

/-- The dict read under the `'deviceMetrics'` key by `update_node`. -/
structure MetricsDict where
  batteryLevel : Option Int := none
deriving DecidableEq, Repr

/-- The `node_data` argument of `Database.update_node`: a dict that may
carry `'user'`, `'position'` and `'deviceMetrics'` keys. -/
structure NodeData where
  user : Option UserDict := none
  position : Option PosDict := none
  deviceMetrics : Option MetricsDict := none
deriving DecidableEq, Repr

/-- A `MeshNode` row as freshly inserted by `update_node` when the node-id
was not found (`MeshNode(node_id=node_id)`, all other columns NULL). -/
def emptyDbNode (nodeId : String) : DbNode := { nodeId }

/-- Field mutation performed by `Database.update_node` (models.py, lines
105–137) on an already-fetched row: each present key overwrites its whole
field group (absent sub-keys store NULL), then `last_seen` is set to the
current clock. -/
def updateNodeRecord (node : DbNode) (nodeData : NodeData) (now : Nat) : DbNode :=
  let node := match nodeData.user with
    | some u => { node with longName := u.longName, shortName := u.shortName,
                            hardwareModel := u.hwModel }
    | none => node
  let node := match nodeData.position with
    | some p => { node with latitude := p.latitude, longitude := p.longitude,
                            altitude := p.altitude }
    | none => node
  let node := match nodeData.deviceMetrics with
    | some m => { node with batteryLevel := m.batteryLevel }
    | none => node
  { node with lastSeen := some now }

/-- `Database.update_node` for one node-id: fetch-or-create then mutate. -/
def updateNode (existing : Option DbNode) (nodeId : String) (nodeData : NodeData)
    (now : Nat) : DbNode :=
  updateNodeRecord (existing.getD (emptyDbNode nodeId)) nodeData now

/-- Folding a sequence of `update_node` calls (payload, clock reading) over
one node's row. -/
def applyUpdates (node : DbNode) : List (NodeData × Nat) → DbNode
  | [] => node
  | (d, t) :: rest => applyUpdates (updateNodeRecord node d t) rest

/-- The `last_seen` column observed after each step of a sequence of
`update_node` calls. -/
def lastSeenTrace (node : DbNode) : List (NodeData × Nat) → List (Option Nat)
  | [] => []
  | (d, t) :: rest =>
    (updateNodeRecord node d t).lastSeen :: lastSeenTrace (updateNodeRecord node d t) rest

/-- A `node_data` dict as built by `_handle_nodeinfo_message`: it always
carries a `'user'` key and nothing else. -/
def isNodeInfoData (nodeData : NodeData) : Prop :=
  nodeData.user.isSome = true ∧ nodeData.position = none ∧ nodeData.deviceMetrics = none

/-! ## Decimal formatting — Python `f"{x:.nf}"` on the payload numbers.
JSON numbers are modelled as rationals; the float-to-decimal rendering is
modelled by rounding to `n` fractional digits (ties here round half away
from zero, indistinguishable from CPython on the inputs exercised). -/

/-- Left-pad a digit string with zeros to width `n`. -/
def padZeros (s : String) (n : Nat) : String :=
  String.mk (List.replicate (n - s.length) '0') ++ s

/-- Rounding to the nearest integer (ties away from zero on the positive
side), used to model decimal rendering. -/
def ratRound (q : Rat) : Int := Rat.floor (q + 1 / 2)

/-- Python `f"{q:.{prec}f}"`. -/
def fmtFixed (q : Rat) (prec : Nat) : String :=
  let scaled : Int := ratRound (q * (10 : Rat) ^ prec)
  let sign := if scaled < 0 then "-" else ""
  let n := scaled.natAbs
  if prec = 0 then sign ++ toString (n / 10 ^ prec)
  else sign ++ toString (n / 10 ^ prec) ++ "." ++ padZeros (toString (n % 10 ^ prec)) prec

example : fmtFixed (111 / 2 : Rat) 6 = "55.500000" := by with_unfolding_all rfl
example : fmtFixed (150 : Rat) 0 = "150" := by with_unfolding_all rfl

/-! ## bridge.py — mesh inbound pipeline -/

/-- In-memory `mesh_nodes[node]['user']` dict (only `longName` is read). -/
structure MemUser where
  longName : Option String := none
deriving DecidableEq, Repr

/-- In-memory `mesh_nodes[node]` entry. -/
structure MeshNodeMem where
  user : Option MemUser := none
deriving DecidableEq, Repr

/-- `from_node in self.mqtt_client.mesh_nodes` / `mesh_nodes[from_node]`. -/
def lookupNode (meshNodes : List (String × MeshNodeMem)) (nodeId : String) :
    Option MeshNodeMem :=
  (meshNodes.find? (fun p => p.1 == nodeId)).map Prod.snd

/-- Display-name resolution of `_handle_text_message` (bridge.py, lines
101–106): `longName` from the in-memory registry, falling back to the
synthesized label `"Узел <id>"` (Russian for "Node <id>"). -/
def resolveNodeInfo (meshNodes : List (String × MeshNodeMem)) (fromNode : String) :
    String :=
  let dflt := "Узел " ++ fromNode
  match lookupNode meshNodes fromNode with
  | none => dflt
  | some nodeData =>
    match nodeData.user with
    | none => dflt
    | some u => u.longName.getD dflt

/-- An element put on `self.message_queue` (`('broadcast', msg)` or
`('notify_admins', msg)`). -/
inductive RelayAction
  | broadcast (text : String)
  | notifyAdmins (text : String)
deriving DecidableEq, Repr

/-- The side effects of one bridge handler invocation:
`update_node` calls, queue puts, persisted log records, in-memory
`mesh_nodes[..]['user']` writes, and caught persistence errors. -/
structure BridgeResult where
  updates : List (String × NodeData) := []
  queued : List RelayAction := []
  logged : List LogRecord := []
  meshUserSet : List (String × MemUser) := []
  logErrors : Nat := 0
deriving DecidableEq, Repr

/-- Payload dict of a text event (only `'text'` is read). -/
structure TextPayload where
  text : Option String := none
deriving DecidableEq, Repr

/-- Envelope of a text event: `data.get('from', 'unknown')`,
`data.get('payload', {})`. -/
structure TextData where
  fromNode : Option String := none
  payload : Option TextPayload := none
deriving DecidableEq, Repr

/-- `_handle_text_message` (bridge.py, lines 92–120).  `logOk` models
whether `database.log_message` succeeds; its failure is caught after the
broadcast is already queued. -/
def handleTextMessage (meshNodes : List (String × MeshNodeMem)) (data : TextData)
    (logOk : Bool) : BridgeResult :=
  let payload := data.payload.getD {}
  let text := payload.text.getD ""
  let fromNode := data.fromNode.getD "unknown"
  if text = "" then {}
  else
    let nodeInfo := resolveNodeInfo meshNodes fromNode
    let telegramMessage := "📡 " ++ nodeInfo ++ ": " ++ text
    { queued := [RelayAction.broadcast telegramMessage],
      logged := if logOk then [⟨"from_mesh", 0, text, some fromNode, "text"⟩] else [],
      logErrors := if logOk then 0 else 1 }

/-- Envelope of a position event. -/
structure PositionData where
  fromNode : Option String := none
  payload : Option PosDict := none
deriving DecidableEq, Repr

/-- Python truthiness of an optional number (`if lat and lon:`):
`None` and `0` are falsy. -/
def truthyRat : Option Rat → Bool
  | none => false
  | some q => q != 0

/-- The admin notification text built by `_handle_position_message`. -/
def positionMessage (fromNode : String) (lat lon alt : Rat) : String :=
  "📍 Позиция от " ++ fromNode ++ ":\n" ++
  "Широта: " ++ fmtFixed lat 6 ++ "\n" ++
  "Долгота: " ++ fmtFixed lon 6 ++ "\n" ++
  "Высота: " ++ fmtFixed alt 0 ++ " м"

/-- `_handle_position_message` (bridge.py, lines 122–146).  The guard is
Python `if lat and lon:` on the raw `.get` results; inside the guard the
values are known present, so `.getD 0` reads the carried numbers. -/
def handlePositionMessage (data : PositionData) : BridgeResult :=
  let payload := data.payload.getD {}
  let fromNode := data.fromNode.getD "unknown"
  let lat := payload.latitude
  let lon := payload.longitude
  let alt := payload.altitude.getD 0
  if truthyRat lat && truthyRat lon then
    { updates := [(fromNode, { position := some payload })],
      queued := [RelayAction.notifyAdmins
        (positionMessage fromNode (lat.getD 0) (lon.getD 0) alt)] }
  else {}

/-- Payload dict of a nodeinfo event: the handler reads its `'user'` key for
the in-memory registry, and `update_node` later reads `longName` /
`shortName` / `hwModel` keys of this same dict (it is passed whole as the
`'user'` value). -/
structure NodeInfoPayload where
  user : Option MemUser := none
  longName : Option String := none
  shortName : Option String := none
  hwModel : Option String := none
deriving DecidableEq, Repr

/-- Envelope of a nodeinfo event. -/
structure NodeInfoData where
  fromNode : Option String := none
  payload : Option NodeInfoPayload := none
deriving DecidableEq, Repr

/-- `_handle_nodeinfo_message` (bridge.py, lines 148–167).  `dbOk` models
whether the `update_node` call succeeds (its failure is caught). -/
def handleNodeinfoMessage (data : NodeInfoData) (dbOk : Bool) : BridgeResult :=
  let fromNode := data.fromNode.getD "unknown"
  let payload := data.payload.getD {}
  { meshUserSet := [(fromNode, payload.user.getD {})],
    updates :=
      if dbOk then
        [(fromNode, { user := some ⟨payload.longName, payload.shortName, payload.hwModel⟩ })]
      else [],
    logErrors := if dbOk then 0 else 1 }

/-- Payload dict of a telemetry event. -/
structure TelemetryPayload where
  batteryLevel : Option Int := none
  voltage : Option Rat := none
deriving DecidableEq, Repr

/-- Envelope of a telemetry event. -/
structure TelemetryData where
  fromNode : Option String := none
  payload : Option TelemetryPayload := none
deriving DecidableEq, Repr

/-- Python truthiness of an optional integer. -/
def truthyInt : Option Int → Bool
  | none => false
  | some n => n != 0

/-- The low-battery warning text built by `_handle_telemetry_message`. -/
def lowBatteryMessage (fromNode : String) (b : Int) : String :=
  "⚠️ Низкий заряд батареи у " ++ fromNode ++ ": " ++ toString b ++ "%"

/-- `_handle_telemetry_message` (bridge.py, lines 169–186).  The warning
guard is Python `if battery_level and battery_level < 20:`. -/
def handleTelemetryMessage (data : TelemetryData) (dbOk : Bool) : BridgeResult :=
  let fromNode := data.fromNode.getD "unknown"
  let payload := data.payload.getD {}
  let batteryLevel := payload.batteryLevel
  { queued :=
      if truthyInt batteryLevel && batteryLevel.getD 0 < 20 then
        [RelayAction.notifyAdmins (lowBatteryMessage fromNode (batteryLevel.getD 0))]
      else [],
    updates :=
      if dbOk then [(fromNode, { deviceMetrics := some ⟨payload.batteryLevel⟩ })] else [],
    logErrors := if dbOk then 0 else 1 }

/-! ## telegram_bot.py — chat inbound pipeline and delivery loop -/

/-- The configuration keys read by the chat-side handlers.  The message
template (`config['bridge']['message_format']`, applied with
`.format(user=..., message=...)`) is modelled as its instantiation
function. -/
structure TgConfig where
  allowedChats : List Int := []
  adminIds : List Int := []
  messageFormat : String → String → String
  maxMessageLength : Nat
  enablePositionSharing : Bool := true

/-- `TelegramBot._check_access` (telegram_bot.py, lines 315–323):
an empty allow-list admits everyone, otherwise membership decides. -/
def checkAccess (allowedChats : List Int) (chatId : Int) : Bool :=
  if allowedChats.isEmpty then true else allowedChats.contains chatId

/-- A mesh publish forwarded through the registered bridge handler
(`handler('send_text', ...)` / `handler('send_position', ...)`). -/
inductive MeshPublish
  | sendText (text : String)
  | sendPosition (lat lon : Rat)
deriving DecidableEq, Repr

/-- The side effects of one chat handler invocation: `reply_text` calls in
order, mesh publishes, and persisted log records. -/
structure TgResult where
  replies : List String := []
  published : List MeshPublish := []
  logged : List LogRecord := []
deriving DecidableEq, Repr

/-- Python `a or b` on an optional string (`None` and `""` are falsy). -/
def pyOrStr (a : Option String) (b : String) : String :=
  match a with
  | some s => if s = "" then b else s
  | none => b

/-- Python slicing `s[:k]` for an arbitrary (possibly negative) `k`. -/
def pySliceTo (s : String) (k : Int) : String :=
  if 0 ≤ k then String.mk (s.data.take k.toNat)
  else String.mk (s.data.take (s.data.length - k.natAbs))

/-- `TelegramBot._text_message` (telegram_bot.py, lines 252–283). -/
def textMessage (cfg : TgConfig) (chatId : Int) (text : String)
    (firstName username : Option String) : TgResult :=
  if !(checkAccess cfg.allowedChats chatId) then
    { replies := ["❌ Доступ запрещен"] }
  else
    let senderName := pyOrStr firstName (pyOrStr username "Unknown")
    let formattedText := cfg.messageFormat senderName text
    let maxLen := cfg.maxMessageLength
    if formattedText.length > maxLen then
      let truncated := pySliceTo formattedText ((maxLen : Int) - 3) ++ "..."
      { replies := ["⚠️ Сообщение обрезано", "✅ Сообщение отправлено в Mesh-сеть"],
        published := [MeshPublish.sendText truncated],
        logged := [⟨"to_mesh", chatId, text, none, "text"⟩] }
    else
      { replies := ["✅ Сообщение отправлено в Mesh-сеть"],
        published := [MeshPublish.sendText formattedText],
        logged := [⟨"to_mesh", chatId, text, none, "text"⟩] }

/-- `TelegramBot._location_message` (telegram_bot.py, lines 285–313).
Python `str(float)` in the log content is abstracted by the rational's
`toString`. -/
def locationMessage (cfg : TgConfig) (chatId : Int) (lat lon : Rat) : TgResult :=
  if !(checkAccess cfg.allowedChats chatId) then
    { replies := ["❌ Доступ запрещен"] }
  else if !cfg.enablePositionSharing then
    { replies := ["❌ Отправка местоположения отключена"] }
  else
    { replies := ["✅ Местоположение отправлено!\n📍 Широта: " ++ fmtFixed lat 6 ++
        "\n📍 Долгота: " ++ fmtFixed lon 6],
      published := [MeshPublish.sendPosition lat lon],
      logged := [⟨"to_mesh", chatId,
        "POSITION: " ++ toString lat ++ ", " ++ toString lon, none, "position"⟩] }

/-- One bullet of the `/nodes` listing (telegram_bot.py, lines 157–170);
the optional lines are guarded by Python truthiness of the columns. -/
def nodeLine (now : Nat) (node : DbNode) : String :=
  let s := "• **" ++ pyOrStr node.longName node.nodeId ++ "**\n"
  let s := s ++ (match node.hardwareModel with
    | some h => if h = "" then "" else "  📟 " ++ h ++ "\n"
    | none => "")
  let s := s ++ (match node.batteryLevel with
    | some b => if b = 0 then "" else "  🔋 " ++ toString b ++ "%\n"
    | none => "")
  let s := s ++ (match node.lastSeen with
    | some ls => "  ⏱ " ++ fmtFixed ((((now : Int) - (ls : Int) : Int) : Rat) / 60) 0 ++
        " мин назад\n"
    | none => "")
  s ++ "\n"

/-- `TelegramBot._nodes_command` (telegram_bot.py, lines 142–176).  `dbOk`
models whether the registry query succeeds.  Note the handler receives the
configuration (`self.config`) but performs no access check. -/
def nodesCommand (cfg : TgConfig) (dbOk : Bool) (nodes : List DbNode) (now : Nat)
    (chatId : Int) : TgResult :=
  if !dbOk then { replies := ["❌ Ошибка при получении данных об узлах"] }
  else if nodes.isEmpty then { replies := ["❌ Нет данных об узлах сети"] }
  else
    let nodesText := "📡 **Активные узлы сети:**\n\n" ++
      String.join ((nodes.take 10).map (nodeLine now))
    let nodesText :=
      if nodes.length > 10 then
        nodesText ++ "\n... и еще " ++ toString (nodes.length - 10) ++ " узлов"
      else nodesText
    { replies := [nodesText],
      logged := [⟨"command", chatId, "/nodes", none, "text"⟩] }

/-- `TelegramBot.broadcast_message` (telegram_bot.py, lines 333–345):
send to every row of the `users` table. -/
def broadcastMessage (users : List DbUser) (text : String) : List (Int × String) :=
  users.map (fun u => (u.chatId, text))

/-- `TelegramBot._notify_admins` (telegram_bot.py, lines 94–100):
send to every configured admin chat-id. -/
def notifyAdminsSend (adminIds : List Int) (text : String) : List (Int × String) :=
  adminIds.map (fun c => (c, text))

/-- Dispatch of one dequeued action inside `_process_message_queue`. -/
def processQueueStep (users : List DbUser) (adminIds : List Int) :
    RelayAction → List (Int × String)
  | RelayAction.broadcast m => broadcastMessage users m
  | RelayAction.notifyAdmins m => notifyAdminsSend adminIds m

/-- `TelegramBot._process_message_queue` (telegram_bot.py, lines 74–92): a
non-blocking drain — `get_nowait` until `Empty` breaks the loop.  Returns
the remaining queue and the per-action send batches in dequeue order. -/
def drainQueue (users : List DbUser) (adminIds : List Int) :
    List RelayAction → List RelayAction × List (List (Int × String))
  | [] => ([], [])
  | a :: rest =>
    let r := drainQueue users adminIds rest
    (r.1, processQueueStep users adminIds a :: r.2)

/-- A concrete configuration with open access, template `"{user}: {message}"`
and maximum length 8, used as evaluation input. -/
def tgCfgSample : TgConfig :=
  { allowedChats := [], adminIds := [],
    messageFormat := fun u m => u ++ ": " ++ m, maxMessageLength := 8 }

/-- A concrete configuration whose maximum message length is 2 (smaller
than the 3-character ellipsis marker), used as evaluation input. -/
def tgCfgTiny : TgConfig :=
  { messageFormat := fun u m => u ++ ": " ++ m, maxMessageLength := 2 }

/-- A concrete configuration whose allow-list is `[1]`, used as evaluation
input for denied chat-ids. -/
def tgCfgDenied : TgConfig :=
  { allowedChats := [1], messageFormat := fun u m => u ++ ": " ++ m,
    maxMessageLength := 100 }

/-- A concrete position event with both coordinates present and nonzero
(latitude 55.5, longitude 37.5, altitude 150), used as evaluation input. -/
def posSample : PositionData :=
  { fromNode := some "!n1",
    payload := some { latitude := some (111 / 2), longitude := some (75 / 2),
                      altitude := some 150 } }

/-! ## Helper lemmas -/

/-- Every `update_node` call stamps `last_seen` with the clock it was
given. -/
theorem updateNodeRecord_lastSeen (node : DbNode) (d : NodeData) (t : Nat) :
    (updateNodeRecord node d t).lastSeen = some t := rfl

/-- The observed `last_seen` values are exactly the clock readings of the
updates, in order. -/
theorem lastSeenTrace_eq (us : List (NodeData × Nat)) :
    ∀ node : DbNode, lastSeenTrace node us = us.map (fun u => some u.2) := by
  induction us with
  | nil => intro node; rfl
  | cons u rest ih =>
    intro node
    obtain ⟨d, t⟩ := u
    simp [lastSeenTrace, updateNodeRecord_lastSeen, ih]

/-- Two consecutive nodeinfo-shaped updates collapse to the second: the
second overwrites every field the first touched. -/
theorem updateNodeRecord_collapse (node : DbNode) (d1 d2 : NodeData) (t1 t2 : Nat)
    (h1 : isNodeInfoData d1) (h2 : isNodeInfoData d2) :
    updateNodeRecord (updateNodeRecord node d1 t1) d2 t2 = updateNodeRecord node d2 t2 := by
  obtain ⟨hu1, hp1, hm1⟩ := h1
  obtain ⟨hu2, hp2, hm2⟩ := h2
  obtain ⟨u1, hu1⟩ := Option.isSome_iff_exists.mp hu1
  obtain ⟨u2, hu2⟩ := Option.isSome_iff_exists.mp hu2
  simp [updateNodeRecord, hu1, hu2, hp1, hp2, hm1, hm2]

/-- A run of nodeinfo-shaped updates ends in the state produced by the last
one alone. -/
theorem applyUpdates_nodeinfo_last (d : NodeData) (t : Nat) (hd : isNodeInfoData d) :
    ∀ (us : List (NodeData × Nat)) (node : DbNode), (∀ u ∈ us, isNodeInfoData u.1) →
      applyUpdates node (us ++ [(d, t)]) = updateNodeRecord node d t := by
  intro us
  induction us with
  | nil => intro node _; rfl
  | cons u rest ih =>
    intro node hus
    obtain ⟨d1, t1⟩ := u
    have h1 : isNodeInfoData d1 := hus _ (List.mem_cons_self _ _)
    have hrest : ∀ v ∈ rest, isNodeInfoData v.1 :=
      fun v hv => hus v (List.mem_cons_of_mem _ hv)
    have step : applyUpdates node (((d1, t1) :: rest) ++ [(d, t)])
        = applyUpdates (updateNodeRecord node d1 t1) (rest ++ [(d, t)]) := rfl
    rw [step, ih _ hrest, updateNodeRecord_collapse node d1 d t1 t h1 hd]

/-- Length of a nonnegative Python slice `s[:k]`. -/
theorem pySliceTo_length_of_nonneg (s : String) (k : Int) (hk : 0 ≤ k) :
    (pySliceTo s k).length = min k.toNat s.length := by
  unfold pySliceTo
  rw [if_pos hk, String.length_mk, List.length_take]
  rfl

/-! ## Claims -/

/-- C2: classification is total over the five kinds, but the classifier
does NOT give topic substring matches priority over the payload `type`
field: the code tests `'text' in topic or type == 'sendtext'` first and
`'position' in topic or type == 'position'` second, so a payload `type`
can override a `telemetry`/`nodeinfo` (and, for `sendtext`, even a
`position`) topic substring.  This theorem characterizes the actual branch
order. -/
theorem getMessageType_branch_order (topic : String) (t : Option String) :
    (strContains topic "text" = true → getMessageType topic t = .text)
  ∧ (t = some "sendtext" → getMessageType topic t = .text)
  ∧ (strContains topic "text" = false → t = some "position" →
      getMessageType topic t = .position)
  ∧ (strContains topic "text" = false → t ≠ some "sendtext" →
      strContains topic "position" = true → getMessageType topic t = .position)
  ∧ (strContains topic "text" = false → strContains topic "position" = false →
      t ≠ some "sendtext" → t ≠ some "position" →
      strContains topic "telemetry" = true → getMessageType topic t = .telemetry)
  ∧ (strContains topic "text" = false → strContains topic "position" = false →
      strContains topic "telemetry" = false → t ≠ some "sendtext" → t ≠ some "position" →
      strContains topic "nodeinfo" = true → getMessageType topic t = .nodeinfo)
  ∧ (strContains topic "text" = false → strContains topic "position" = false →
      strContains topic "telemetry" = false → strContains topic "nodeinfo" = false →
      t ≠ some "sendtext" → t ≠ some "position" → getMessageType topic t = .unknown) := by
  refine ⟨?_, ?_, ?_, ?_, ?_, ?_, ?_⟩ <;> intros <;> simp_all [getMessageType]

/-- C2 witness: the branch-order theorem applied at a concrete input. -/
theorem getMessageType_branch_order_witness :
    getMessageType "msh/2/json" (some "sendtext") = .text :=
  (getMessageType_branch_order "msh/2/json" (some "sendtext")).2.1 rfl

/-- C2 counterexample: the topic contains the substring `"telemetry"`,
yet the payload `type` field decides the kind — topic substring matching
does not take priority as claimed. -/
theorem getMessageType_type_overrides_topic_cex :
    getMessageType "msh/telemetry" (some "sendtext") = MessageKind.text
  ∧ strContains "msh/telemetry" "telemetry" = true
  ∧ MessageKind.text ≠ MessageKind.telemetry := by decide

/-- C9: per node, `last_seen` is stamped with the clock of each update and
is therefore non-decreasing across any update sequence under a
non-decreasing clock, and a sequence of nodeinfo updates converges to the
state produced by the last update alone. -/
theorem updateNode_monotone_convergence (node : DbNode) (us : List (NodeData × Nat)) :
    (∀ d t, (updateNodeRecord node d t).lastSeen = some t)
  ∧ lastSeenTrace node us = us.map (fun u => some u.2)
  ∧ (List.Chain' (fun a b => a.2 ≤ b.2) us →
      List.Chain' (fun a b : Option Nat => ∀ x ∈ a, ∀ y ∈ b, x ≤ y) (lastSeenTrace node us))
  ∧ (∀ d t, (∀ u ∈ us, isNodeInfoData u.1) → isNodeInfoData d →
      applyUpdates node (us ++ [(d, t)]) = updateNodeRecord node d t) := by
  refine ⟨fun d t => updateNodeRecord_lastSeen node d t, lastSeenTrace_eq us node, ?_, ?_⟩
  · intro h
    rw [lastSeenTrace_eq us node, List.chain'_map]
    refine h.imp ?_
    intro a b hab x hx y hy
    simp only [Option.mem_def, Option.some_inj] at hx hy
    subst hx; subst hy
    exact hab
  · intro d t hus hd
    exact applyUpdates_nodeinfo_last d t hd us node hus

/-- C9 witness: a concrete two-step nodeinfo sequence with a non-decreasing
clock. -/
theorem updateNode_monotone_convergence_witness :
    lastSeenTrace (emptyDbNode "!n1")
        [({ user := some { longName := some "A" } }, 5),
         ({ user := some { longName := some "B" } }, 7)]
      = [some 5, some 7]
  ∧ applyUpdates (emptyDbNode "!n1")
        ([({ user := some { longName := some "A" } }, 5)] ++
         [({ user := some { longName := some "B" } }, 7)])
      = updateNodeRecord (emptyDbNode "!n1") { user := some { longName := some "B" } } 7 := by
  constructor
  · rw [(updateNode_monotone_convergence (emptyDbNode "!n1")
      [({ user := some { longName := some "A" } }, 5),
       ({ user := some { longName := some "B" } }, 7)]).2.1]
    rfl
  · exact (updateNode_monotone_convergence (emptyDbNode "!n1")
      [({ user := some { longName := some "A" } }, 5)]).2.2.2
      { user := some { longName := some "B" } } 7
      (by intro u hu; simp at hu; subst hu; exact ⟨rfl, rfl, rfl⟩)
      ⟨rfl, rfl, rfl⟩

/-- C3 (amended): the position handler updates the registry and enqueues
exactly one `NotifyAdmins` action — with latitude/longitude rendered to 6
decimal places and altitude (defaulting to 0) to 0 decimals — when both
coordinates are present AND nonzero; when either coordinate is absent OR
zero (Python truthiness of `if lat and lon:`), it is a complete no-op. -/
theorem handlePositionMessage_gating (data : PositionData) :
    (∀ lat lon, (data.payload.getD {}).latitude = some lat →
      (data.payload.getD {}).longitude = some lon → lat ≠ 0 → lon ≠ 0 →
      handlePositionMessage data =
        { updates := [(data.fromNode.getD "unknown",
            { position := some (data.payload.getD {}) })],
          queued := [RelayAction.notifyAdmins
            (positionMessage (data.fromNode.getD "unknown") lat lon
              ((data.payload.getD {}).altitude.getD 0))] })
  ∧ (truthyRat (data.payload.getD {}).latitude = false ∨
      truthyRat (data.payload.getD {}).longitude = false →
      handlePositionMessage data = {}) := by
  constructor
  · intro lat lon hlat hlon hlat0 hlon0
    have h1 : truthyRat (some lat) = true := by simpa [truthyRat] using hlat0
    have h2 : truthyRat (some lon) = true := by simpa [truthyRat] using hlon0
    simp [handlePositionMessage, hlat, hlon, h1, h2]
  · intro h
    rcases h with h | h <;> simp [handlePositionMessage, h]

/-- C3 witness: both coordinates present and nonzero at a concrete input. -/
theorem handlePositionMessage_gating_witness :
    handlePositionMessage posSample =
      { updates := [(posSample.fromNode.getD "unknown",
          { position := some (posSample.payload.getD {}) })],
        queued := [RelayAction.notifyAdmins
          (positionMessage (posSample.fromNode.getD "unknown") (111 / 2) (75 / 2)
            ((posSample.payload.getD {}).altitude.getD 0))] } :=
  (handlePositionMessage_gating posSample).1 (111 / 2) (75 / 2) rfl rfl
    (by norm_num) (by norm_num)

/-- C3 counterexample: latitude 0 and longitude 5 are both PRESENT in the
payload, yet the handler performs no registry mutation and queues no
action — `0` is falsy in the Python guard `if lat and lon:`. -/
theorem handlePositionMessage_zero_latitude_cex :
    handlePositionMessage
        { fromNode := some "!n1",
          payload := some { latitude := some 0, longitude := some 5 } } = {}
  ∧ (some (0 : Rat)).isSome = true ∧ (some (5 : Rat)).isSome = true := by
  refine ⟨?_, rfl, rfl⟩
  with_unfolding_all rfl

/-- C4 (amended): the telemetry handler enqueues exactly one low-battery
`NotifyAdmins` warning when the battery level is present, NONZERO and
strictly below 20, and nothing when it is absent or ≥ 20 (battery level 0
is also silent: `if battery_level and battery_level < 20:`). -/
theorem handleTelemetryMessage_threshold (data : TelemetryData) (dbOk : Bool) :
    (∀ b, (data.payload.getD {}).batteryLevel = some b → b ≠ 0 → b < 20 →
      (handleTelemetryMessage data dbOk).queued
        = [RelayAction.notifyAdmins (lowBatteryMessage (data.fromNode.getD "unknown") b)])
  ∧ (∀ b, (data.payload.getD {}).batteryLevel = some b → 20 ≤ b →
      (handleTelemetryMessage data dbOk).queued = [])
  ∧ ((data.payload.getD {}).batteryLevel = none →
      (handleTelemetryMessage data dbOk).queued = []) := by
  refine ⟨?_, ?_, ?_⟩
  · intro b hb hb0 hb20
    simp [handleTelemetryMessage, hb, truthyInt, hb0, hb20]
  · intro b hb hb20
    have h : ¬ b < 20 := by omega
    simp [handleTelemetryMessage, hb, h]
  · intro hb
    simp [handleTelemetryMessage, hb, truthyInt]

/-- C4 witness: battery 19 warns, battery 20 does not, absent does not. -/
theorem handleTelemetryMessage_threshold_witness :
    (handleTelemetryMessage
        { fromNode := some "!ab12", payload := some { batteryLevel := some 19 } }
        true).queued
      = [RelayAction.notifyAdmins (lowBatteryMessage "!ab12" 19)]
  ∧ (handleTelemetryMessage
        { fromNode := some "!ab12", payload := some { batteryLevel := some 20 } }
        true).queued = []
  ∧ (handleTelemetryMessage
        { fromNode := some "!ab12", payload := some {} } true).queued = [] :=
  ⟨(handleTelemetryMessage_threshold _ true).1 19 rfl (by decide) (by decide),
   (handleTelemetryMessage_threshold _ true).2.1 20 rfl (by decide),
   (handleTelemetryMessage_threshold _ true).2.2 rfl⟩

/-- C4 counterexample: battery level 0 is present and strictly below 20,
yet no warning is enqueued. -/
theorem handleTelemetryMessage_zero_battery_cex :
    (handleTelemetryMessage
        { fromNode := some "!n1", payload := some { batteryLevel := some 0 } }
        true).queued = []
  ∧ (some (0 : Int)).isSome = true ∧ (0 : Int) < 20 := by
  refine ⟨rfl, rfl, by decide⟩

/-- C7 (amended): only Text events append a log record: the position,
nodeinfo and telemetry handlers never call `log_message`, while a
processed nonempty text event appends one `from_mesh` record. -/
theorem mesh_pipeline_logs_only_text :
    (∀ data : PositionData, (handlePositionMessage data).logged = [])
  ∧ (∀ (data : NodeInfoData) (dbOk : Bool), (handleNodeinfoMessage data dbOk).logged = [])
  ∧ (∀ (data : TelemetryData) (dbOk : Bool), (handleTelemetryMessage data dbOk).logged = [])
  ∧ (∀ (meshNodes : List (String × MeshNodeMem)) (data : TextData) (txt : String),
      (data.payload.getD {}).text = some txt → txt ≠ "" →
      (handleTextMessage meshNodes data true).logged
        = [⟨"from_mesh", 0, txt, some (data.fromNode.getD "unknown"), "text"⟩]) := by
  refine ⟨?_, ?_, ?_, ?_⟩
  · intro data
    simp [handlePositionMessage, apply_ite BridgeResult.logged]
  · intro data dbOk; rfl
  · intro data dbOk; rfl
  · intro meshNodes data txt hp htxt
    simp [handleTextMessage, hp, htxt]

/-- C7 witness: the text branch of the logging theorem at a concrete
nonempty text event. -/
theorem mesh_pipeline_logs_only_text_witness :
    (handleTextMessage []
        { fromNode := some "!ab12", payload := some { text := some "hello" } }
        true).logged
      = [⟨"from_mesh", 0, "hello", some "!ab12", "text"⟩] :=
  mesh_pipeline_logs_only_text.2.2.2 []
    { fromNode := some "!ab12", payload := some { text := some "hello" } }
    "hello" rfl (by decide)

/-- C7 counterexample: a position event that IS fully processed (one
registry update, one queued action) persists no log record. -/
theorem position_event_unlogged_cex :
    (handlePositionMessage posSample).logged = []
  ∧ (handlePositionMessage posSample).queued.length = 1
  ∧ (handlePositionMessage posSample).updates.length = 1 := by
  refine ⟨?_, ?_, ?_⟩ <;> with_unfolding_all rfl

/-- C6 (amended): a mesh text event with empty body is a complete no-op;
otherwise exactly one `Broadcast` is enqueued carrying
`"📡 <display-name>: <text>"`, where an unseen sender resolves to the
synthesized label `"Узел <id>"` (the code's Russian rendering of
"Node <id>"), one `from_mesh` log record is appended, and a caught
log-persistence failure loses only the record — the broadcast stays
queued and the handler returns normally. -/
theorem handleTextMessage_broadcast_format (meshNodes : List (String × MeshNodeMem))
    (data : TextData) (logOk : Bool) :
    ((data.payload.getD {}).text.getD "" = "" →
      handleTextMessage meshNodes data logOk = {})
  ∧ (∀ txt, (data.payload.getD {}).text = some txt → txt ≠ "" →
      (handleTextMessage meshNodes data logOk).queued
        = [RelayAction.broadcast
            ("📡 " ++ resolveNodeInfo meshNodes (data.fromNode.getD "unknown")
              ++ ": " ++ txt)]
      ∧ (lookupNode meshNodes (data.fromNode.getD "unknown") = none →
          resolveNodeInfo meshNodes (data.fromNode.getD "unknown")
            = "Узел " ++ data.fromNode.getD "unknown")
      ∧ (logOk = true →
          (handleTextMessage meshNodes data logOk).logged
            = [⟨"from_mesh", 0, txt, some (data.fromNode.getD "unknown"), "text"⟩])
      ∧ (logOk = false →
          (handleTextMessage meshNodes data logOk).logged = []
          ∧ (handleTextMessage meshNodes data logOk).logErrors = 1)) := by
  constructor
  · intro h; simp [handleTextMessage, h]
  · intro txt hp htxt
    refine ⟨?_, ?_, ?_, ?_⟩
    · simp [handleTextMessage, hp, htxt]
    · intro hl; simp [resolveNodeInfo, hl]
    · intro hlog; simp [handleTextMessage, hp, htxt, hlog]
    · intro hlog; subst hlog
      constructor <;> simp [handleTextMessage, hp, htxt]

/-- C6 witness: a nonempty text from an unseen sender, with the log write
failing: the broadcast is still queued and the error is swallowed. -/
theorem handleTextMessage_broadcast_format_witness :
    (handleTextMessage []
        { fromNode := some "!ab12", payload := some { text := some "hello" } }
        false).queued
      = [RelayAction.broadcast
          ("📡 " ++ resolveNodeInfo [] (((some "!ab12" : Option String)).getD "unknown")
            ++ ": " ++ "hello")]
  ∧ (handleTextMessage []
        { fromNode := some "!ab12", payload := some { text := some "hello" } }
        false).logged = []
  ∧ (handleTextMessage []
        { fromNode := some "!ab12", payload := some { text := some "hello" } }
        false).logErrors = 1 := by
  have h := (handleTextMessage_broadcast_format []
    { fromNode := some "!ab12", payload := some { text := some "hello" } } false).2
    "hello" rfl (by decide)
  exact ⟨h.1, (h.2.2.2 rfl).1, (h.2.2.2 rfl).2⟩

/-- C6 counterexample: the synthesized fallback label in the code is the
Russian `"Узел <id>"`, not the literal `"Node <id>"` of the claim. -/
theorem handleTextMessage_label_cex :
    (handleTextMessage []
        { fromNode := some "!ab12", payload := some { text := some "hello" } }
        true).queued
      = [RelayAction.broadcast "📡 Узел !ab12: hello"]
  ∧ "📡 Узел !ab12: hello" ≠ "📡 Node !ab12: hello" := by
  exact ⟨by decide, by decide⟩

/-- C5 (amended): provided the configured maximum is at least the
3-character ellipsis marker, an admitted chat text whose formatted form
exceeds the maximum is forwarded as exactly `max` characters ending in
`"..."` together with a truncation notice to the sender, and a formatted
form within the maximum is forwarded unchanged with no truncation
notice. -/
theorem textMessage_truncation (cfg : TgConfig) (chatId : Int) (text : String)
    (firstName username : Option String)
    (hacc : checkAccess cfg.allowedChats chatId = true)
    (hmax : 3 ≤ cfg.maxMessageLength) :
    ((cfg.messageFormat (pyOrStr firstName (pyOrStr username "Unknown")) text).length
        > cfg.maxMessageLength →
      ∃ out, (textMessage cfg chatId text firstName username).published
          = [MeshPublish.sendText out]
        ∧ out.length = cfg.maxMessageLength
        ∧ "...".data <:+ out.data
        ∧ "⚠️ Сообщение обрезано" ∈ (textMessage cfg chatId text firstName username).replies)
  ∧ ((cfg.messageFormat (pyOrStr firstName (pyOrStr username "Unknown")) text).length
        ≤ cfg.maxMessageLength →
      (textMessage cfg chatId text firstName username).published
        = [MeshPublish.sendText
            (cfg.messageFormat (pyOrStr firstName (pyOrStr username "Unknown")) text)]
      ∧ "⚠️ Сообщение обрезано" ∉
          (textMessage cfg chatId text firstName username).replies) := by
  constructor
  · intro hlen
    refine ⟨pySliceTo (cfg.messageFormat (pyOrStr firstName (pyOrStr username "Unknown")) text)
      ((cfg.maxMessageLength : Int) - 3) ++ "...", ?_, ?_, ?_, ?_⟩
    · simp [textMessage, hacc, hlen]
    · have hk : (0 : Int) ≤ (cfg.maxMessageLength : Int) - 3 := by omega
      rw [String.length_append, pySliceTo_length_of_nonneg _ _ hk]
      have htn : ((cfg.maxMessageLength : Int) - 3).toNat = cfg.maxMessageLength - 3 := by
        omega
      rw [htn]
      have hmin : min (cfg.maxMessageLength - 3)
          (cfg.messageFormat (pyOrStr firstName (pyOrStr username "Unknown")) text).length
          = cfg.maxMessageLength - 3 := by omega
      rw [hmin]
      have : ("..." : String).length = 3 := rfl
      omega
    · rw [String.data_append]
      exact List.suffix_append _ _
    · simp [textMessage, hacc, hlen]
  · intro hlen
    have h2 : ¬ (cfg.messageFormat (pyOrStr firstName (pyOrStr username "Unknown")) text).length
        > cfg.maxMessageLength := by omega
    refine ⟨by simp [textMessage, hacc, h2], ?_⟩
    simp [textMessage, hacc, h2]

/-- C5 witness: max 8, formatted text `"Al: hello!"` of length 10; the
forwarded text has exactly 8 characters and ends in the marker. -/
theorem textMessage_truncation_witness :
    ∃ out, (textMessage tgCfgSample 7 "hello!" (some "Al") none).published
        = [MeshPublish.sendText out]
      ∧ out.length = tgCfgSample.maxMessageLength
      ∧ "...".data <:+ out.data
      ∧ "⚠️ Сообщение обрезано" ∈ (textMessage tgCfgSample 7 "hello!" (some "Al") none).replies :=
  (textMessage_truncation tgCfgSample 7 "hello!" (some "Al") none rfl (by decide)).1
    (by decide)

/-- C5 counterexample: with configured maximum 2 the formatted text
`"Al: hi"` (length 6 > 2) is forwarded as `"Al: h..."` — 8 characters,
not the claimed exactly-`max` (2) characters: Python `s[:2-3]` slices from
the end. -/
theorem textMessage_small_max_cex :
    tgCfgTiny.messageFormat (pyOrStr (some "Al") (pyOrStr none "Unknown")) "hi" = "Al: hi"
  ∧ ("Al: hi" : String).length > tgCfgTiny.maxMessageLength
  ∧ (textMessage tgCfgTiny 7 "hi" (some "Al") none).published
      = [MeshPublish.sendText "Al: h..."]
  ∧ ("Al: h..." : String).length = 8
  ∧ (8 : Nat) ≠ tgCfgTiny.maxMessageLength := by
  refine ⟨by decide, by decide, by decide, by decide, by decide⟩

/-- C1 (amended): `_check_access` admits every chat-id when the allow-list
is empty and rejects unlisted chat-ids otherwise; the plain-text and
location handlers check it first and on denial produce only the fixed
denial reply (no mesh publish, no log record); but the `/nodes` command
handler performs no allow-list check at all — its behavior is independent
of the allow-list and it appends a `command` log record for any chat-id. -/
theorem accessControl_allowlist_scope (cfg : TgConfig) (chatId : Int) :
    checkAccess [] chatId = true
  ∧ (∀ allowed : List Int, allowed ≠ [] → allowed.contains chatId = false →
      checkAccess allowed chatId = false)
  ∧ (checkAccess cfg.allowedChats chatId = false →
      ∀ text firstName username,
        textMessage cfg chatId text firstName username
          = { replies := ["❌ Доступ запрещен"] })
  ∧ (checkAccess cfg.allowedChats chatId = false →
      ∀ lat lon, locationMessage cfg chatId lat lon
          = { replies := ["❌ Доступ запрещен"] })
  ∧ (∀ allowed dbOk nodes now,
      nodesCommand { cfg with allowedChats := allowed } dbOk nodes now chatId
        = nodesCommand cfg dbOk nodes now chatId)
  ∧ (∀ nodes now, nodes ≠ [] →
      (nodesCommand cfg true nodes now chatId).logged
        = [⟨"command", chatId, "/nodes", none, "text"⟩]) := by
  refine ⟨rfl, ?_, ?_, ?_, ?_, ?_⟩
  · intro allowed hne hnc
    cases allowed with
    | nil => exact absurd rfl hne
    | cons a as => simp [checkAccess] at hnc ⊢; simp [hnc]
  · intro hc text firstName username; simp [textMessage, hc]
  · intro hc lat lon; simp [locationMessage, hc]
  · intro allowed dbOk nodes now; rfl
  · intro nodes now hne; simp [nodesCommand, hne]

/-- C1 witness: chat-id 2 against allow-list `[1]`: the text handler
replies only the denial. -/
theorem accessControl_allowlist_scope_witness :
    checkAccess [1] 2 = false
  ∧ textMessage tgCfgDenied 2 "hi" (some "Al") none
      = { replies := ["❌ Доступ запрещен"] } := by
  have h := accessControl_allowlist_scope tgCfgDenied 2
  exact ⟨h.2.1 [1] (by decide) (by decide), h.2.2.1 (by decide) "hi" (some "Al") none⟩

/-- C1 counterexample: chat-id 2 is denied by the allow-list `[1]`, yet
`/nodes` serves the node listing and appends a `command` log record —
it never consults the allow-list, contradicting "every handler checks
first" and "no log record for denied attempts". -/
theorem nodesCommand_ignores_allowlist_cex :
    checkAccess [1] 2 = false
  ∧ (nodesCommand tgCfgDenied true [emptyDbNode "!n1"] 120 2).logged
      = [⟨"command", 2, "/nodes", none, "text"⟩]
  ∧ (nodesCommand tgCfgDenied true [emptyDbNode "!n1"] 120 2).replies
      ≠ ["❌ Доступ запрещен"] := by
  refine ⟨by decide, by decide, by decide⟩

/-- C8: one delivery-loop tick drains the queue completely without
blocking: enqueueing N actions yields exactly N executed batches in FIFO
enqueue order, the queue is left empty, and a drain of the empty queue
performs zero deliveries and returns. -/
theorem drainQueue_fifo_complete (users : List DbUser) (adminIds : List Int)
    (q : List RelayAction) :
    (drainQueue users adminIds q).1 = []
  ∧ (drainQueue users adminIds q).2 = q.map (processQueueStep users adminIds)
  ∧ (drainQueue users adminIds q).2.length = q.length
  ∧ drainQueue users adminIds [] = ([], []) := by
  have key : ∀ r : List RelayAction, (drainQueue users adminIds r).1 = []
      ∧ (drainQueue users adminIds r).2 = r.map (processQueueStep users adminIds) := by
    intro r
    induction r with
    | nil => exact ⟨rfl, rfl⟩
    | cons a rest ih => simp [drainQueue, ih.1, ih.2]
  refine ⟨(key q).1, (key q).2, ?_, rfl⟩
  rw [(key q).2]; simp

/-- Flipping every user's approval flag changes no dispatched sends. -/
theorem processQueueStep_approval (users : List DbUser) (f : DbUser → Bool)
    (adminIds : List Int) (a : RelayAction) :
    processQueueStep (users.map (fun v => { v with isApproved := f v })) adminIds a
      = processQueueStep users adminIds a := by
  cases a <;>
    simp [processQueueStep, broadcastMessage, notifyAdminsSend, List.map_map,
      Function.comp]

/-- C10: a `Broadcast` is delivered to exactly the chat-ids of all
persisted users: the recipient set ignores the allow-list (a user denied
by `_check_access` still receives it) and is invariant under arbitrary
rewriting of every `is_approved` flag — the delivery loop never reads the
approval flag. -/
theorem broadcastMessage_recipients (users : List DbUser) (text : String)
    (allowed : List Int) (f : DbUser → Bool) :
    (broadcastMessage users text).map Prod.fst = users.map DbUser.chatId
  ∧ (∀ u ∈ users, checkAccess allowed u.chatId = false →
      (u.chatId, text) ∈ broadcastMessage users text)
  ∧ broadcastMessage (users.map (fun v => { v with isApproved := f v })) text
      = broadcastMessage users text
  ∧ (∀ adminIds q,
      drainQueue (users.map (fun v => { v with isApproved := f v })) adminIds q
        = drainQueue users adminIds q) := by
  refine ⟨?_, ?_, ?_, ?_⟩
  · simp [broadcastMessage, List.map_map, Function.comp]
  · intro u hu _
    exact List.mem_map_of_mem _ hu
  · simp [broadcastMessage, List.map_map, Function.comp]
  · intro adminIds q
    induction q with
    | nil => rfl
    | cons a rest ih => simp [drainQueue, ih, processQueueStep_approval]

/-- C10 witness: a user whose chat-id 42 is outside the allow-list `[1]`
and whose approval flag is cleared still receives the broadcast. -/
theorem broadcastMessage_recipients_witness :
    ((42 : Int), "hi") ∈ broadcastMessage [{ chatId := 42 }] "hi" :=
  (broadcastMessage_recipients [{ chatId := 42 }] "hi" [1] (fun _ => false)).2.1
    { chatId := 42 } (by decide) (by decide)

end MeshBridge
